import Mathlib

/-!
Verification of the GraphQL request-execution and error-reporting helper of
the agrimetrics api-examples repository (verde-examples/walkthrough.ipynb),
embedded shallowly: JSON values are an inductive type, Python dicts are
insertion-ordered association lists, raised Python exceptions are an explicit
error type, and printed output is collected as a list of lines.
-/

/-- A JSON value as produced by result.json(). Python dicts keep insertion
order, so objects are association lists; JSON numbers carry no float
arithmetic in this program, so they are embedded as rationals. -/
inductive JSON where
  | null : JSON
  | bool : Bool → JSON
  | num : ℚ → JSON
  | str : String → JSON
  | arr : List JSON → JSON
  | obj : List (String × JSON) → JSON

/-- Python exceptions that the embedded code can raise. -/
inductive PyError where
  | exn : String → PyError
  | keyError : String → PyError
  | typeError : String → PyError
  | indexError : String → PyError
  deriving DecidableEq

/-- First-match lookup in an insertion-ordered dict (Python dict keys are
unique, so first match is the only match). -/
def alookup {α : Type} : List (String × α) → String → Option α
  | [], _ => none
  | (k2, v) :: rest, k => if k2 = k then some v else alookup rest k

/-- Rendering of a JSON number by Python str(): integers render without a
decimal point. Non-integer rationals only occur as data values in this
repository, never in a rendered message, so their rendering is unexercised. -/
def renderNum (q : ℚ) : String :=
  if q.den = 1 then toString q.num else toString q.num ++ "/" ++ toString q.den

/-- The single-quote character used by Python repr() of strings. -/
def squote : String := String.singleton (Char.ofNat 39)

/-- Python type names as they appear in TypeError messages. -/
def pyTypeName : JSON → String
  | .null => "NoneType"
  | .bool _ => "bool"
  | .num q => if q.den = 1 then "int" else "float"
  | .str _ => "str"
  | .arr _ => "list"
  | .obj _ => "dict"

mutual

/-- Python repr() of a JSON value. -/
def pyRepr : JSON → String
  | .null => "None"
  | .bool true => "True"
  | .bool false => "False"
  | .num q => renderNum q
  | .str s => squote ++ s ++ squote
  | .arr xs => "[" ++ pyReprItems xs ++ "]"
  | .obj fs => "\x7b" ++ pyReprFields fs ++ "\x7d"

/-- repr() of list items, comma separated. -/
def pyReprItems : List JSON → String
  | [] => ""
  | [x] => pyRepr x
  | x :: rest => pyRepr x ++ ", " ++ pyReprItems rest

/-- repr() of dict fields, comma separated. -/
def pyReprFields : List (String × JSON) → String
  | [] => ""
  | [(k, v)] => squote ++ k ++ squote ++ ": " ++ pyRepr v
  | (k, v) :: rest => squote ++ k ++ squote ++ ": " ++ pyRepr v ++ ", " ++ pyReprFields rest

end

/-- Python str() as used by f-string interpolation: a str interpolates as
itself, everything else as its repr-style rendering. -/
def pyStr : JSON → String
  | .str s => s
  | j => pyRepr j

/-- Python truthiness, for `if errors:`. -/
def pyTruthy : JSON → Bool
  | .null => false
  | .bool b => b
  | .num q => decide (q ≠ 0)
  | .str s => decide (s ≠ "")
  | .arr xs => !xs.isEmpty
  | .obj fs => !fs.isEmpty

/-- Python subscripting x[k] with a string key: dict lookup raising KeyError
on a missing key, TypeError when the value is not a dict. -/
def JSON.subscript (j : JSON) (k : String) : Except PyError JSON :=
  match j with
  | .obj fs =>
    match alookup fs k with
    | some v => .ok v
    | none => .error (.keyError k)
  | .arr _ => .error (.typeError "list indices must be integers or slices, not str")
  | .str _ => .error (.typeError "string indices must be integers")
  | _ => .error (.typeError "object is not subscriptable")

/-- Python subscripting x[i] with an integer: list indexing with negative
wrap-around and IndexError out of range; an integer key is never present in
this program's dicts (all keys are strings), so dict[i] raises KeyError. -/
def JSON.indexInt (j : JSON) (i : Int) : Except PyError JSON :=
  match j with
  | .arr xs =>
    let n : Int := xs.length
    let j2 := if i < 0 then i + n else i
    if h : 0 ≤ j2 ∧ j2 < n then
      .ok (xs.get ⟨j2.toNat, by omega⟩)
    else
      .error (.indexError "list index out of range")
  | .obj _ => .error (.keyError (toString i))
  | _ => .error (.typeError "object is not subscriptable")

/-- dict.get(k, default) — result.json().get("errors", []); on a non-dict
value .get is a missing attribute, raised as a TypeError-class failure. -/
def dictGet (j : JSON) (k : String) (dflt : JSON) : Except PyError JSON :=
  match j with
  | .obj fs => .ok ((alookup fs k).getD dflt)
  | _ => .error (.typeError "object has no attribute get")

/-- An HTTP response as seen through the requests library: status_code, raw
body text, and the JSON parse of that text (none when the body is not valid
JSON). -/
structure Response where
  status_code : Nat
  text : String
  jsonBody : Option JSON

/-- result.json(): the parsed body, raising on unparseable text. -/
def Response.json (r : Response) : Except PyError JSON :=
  match r.jsonBody with
  | some j => .ok j
  | none => .error (.exn "JSONDecodeError")

/-- One f"line {loc['line']}, col {loc['column']}" item of the locations
comprehension in check_results. -/
def locString (loc : JSON) : Except PyError String :=
  match loc.subscript "line" with
  | .error e => .error e
  | .ok l =>
    match loc.subscript "column" with
    | .error e => .error e
    | .ok c => .ok ("line " ++ pyStr l ++ ", col " ++ pyStr c)

/-- The full list comprehension over err['locations']. -/
def locStrings : List JSON → Except PyError (List String)
  | [] => .ok []
  | loc :: rest =>
    match locString loc with
    | .error e => .error e
    | .ok s =>
      match locStrings rest with
      | .error e => .error e
      | .ok ss => .ok (s :: ss)

/-- " and ".join([... for loc in err['locations']]): the comprehension runs
over a list; iterating a non-list JSON value fails before any join. -/
def renderLocs (locs : JSON) : Except PyError String :=
  match locs with
  | .arr xs =>
    match locStrings xs with
    | .error e => .error e
    | .ok ss => .ok (String.intercalate " and " ss)
  | _ => .error (.typeError "object is not iterable")

/-- str.join item traversal: every item must itself be a str, otherwise
join raises TypeError naming the first offending position and type. -/
def strJoinGo (i : Nat) : List JSON → Except PyError (List String)
  | [] => .ok []
  | .str s :: rest =>
    match strJoinGo (i + 1) rest with
    | .error e => .error e
    | .ok ss => .ok (s :: ss)
  | x :: _ =>
    .error (.typeError ("sequence item " ++ toString i ++
      ": expected str instance, " ++ pyTypeName x ++ " found"))

/-- sep.join(x) as used for ".".join(err['path']): joining a list checks
every item is a str; joining a str joins its characters; anything else is
not iterable. -/
def strJoin (sep : String) (j : JSON) : Except PyError String :=
  match j with
  | .arr xs =>
    match strJoinGo 0 xs with
    | .error e => .error e
    | .ok ss => .ok (String.intercalate sep ss)
  | .str s => .ok (String.intercalate sep (s.data.map fun c => String.singleton c))
  | _ => .error (.typeError "can only join an iterable")

/-- The " and ".join(...) expression of the second print statement for an
error entry. -/
def entryLocLine (e : JSON) : Except PyError String :=
  match e.subscript "locations" with
  | .error err => .error err
  | .ok locs => renderLocs locs

/-- The ".".join(err['path']) expression of the third print statement. -/
def entryPathLine (e : JSON) : Except PyError String :=
  match e.subscript "path" with
  | .error err => .error err
  | .ok p => strJoin "." p

/-- The body of the `for err in errors:` loop in check_results: the four
print statements for one error entry, emitting each printed line in order
and stopping at the first raised exception. -/
def processEntry (e : JSON) : List String × Option PyError :=
  match e.subscript "message" with
  | .error err => ([], some err)
  | .ok msg =>
    let line1 := pyStr msg ++ ":"
    match entryLocLine e with
    | .error err => ([line1], some err)
    | .ok ls =>
      let line2 := "  at " ++ ls
      match entryPathLine e with
      | .error err => ([line1, line2], some err)
      | .ok ps =>
        let line3 := "  path " ++ ps
        match e.subscript "extensions" with
        | .error err => ([line1, line2, line3], some err)
        | .ok exts => ([line1, line2, line3, "  " ++ pyStr exts], none)

/-- The whole `for err in errors:` loop: output accumulates across entries
and the first raised exception aborts the loop. -/
def processEntries : List JSON → List String × Option PyError
  | [] => ([], none)
  | e :: rest =>
    match processEntry e with
    | (out, some err) => (out, some err)
    | (out, none) =>
      let (out2, res) := processEntries rest
      (out ++ out2, res)

/-- check_results(result) from walkthrough.ipynb: non-200 raises with the
status code and raw body; otherwise the errors list (defaulting to []) is
rendered entry by entry and a final aggregate exception reports len(errors);
an empty or absent errors list returns normally. The returned pair is
(printed lines, raised exception or none). -/
def check_results (r : Response) : List String × Option PyError :=
  if r.status_code ≠ 200 then
    ([], some (.exn ("Request failed with code " ++ toString r.status_code ++
      ".\n" ++ r.text)))
  else
    match r.json with
    | .error e => ([], some e)
    | .ok body =>
      match dictGet body "errors" (.arr []) with
      | .error e => ([], some e)
      | .ok errors =>
        if pyTruthy errors then
          match errors with
          | .arr es =>
            match processEntries es with
            | (out, some err) => (out, some err)
            | (out, none) =>
              (out, some (.exn ("GraphQL reported " ++ toString es.length ++
                " errors")))
          | _ => ([], some (.typeError "object is not iterable"))
        else ([], none)

/-- The caller pattern around every request in the notebook:
check_results(result) followed by data = result.json()["data"]. -/
def run_query (r : Response) : List String × Except PyError JSON :=
  match check_results r with
  | (out, some err) => (out, .error err)
  | (out, none) =>
    match r.json with
    | .error e => (out, .error e)
    | .ok body =>
      match body.subscript "data" with
      | .error e => (out, .error e)
      | .ok d => (out, .ok d)

/-- The fixed GraphQL endpoint URL from the notebook. -/
def GRAPHQL_ENDPOINT : String := "https://api.agrimetrics.co.uk/graphql/v1/"

/-- The API_KEY resolution cell: os.environ is an association list; when
"API_KEY" is present its value is taken verbatim, otherwise the key is read
interactively and stripped. -/
def resolve_api_key (env : List (String × String)) (interactive : String) : String :=
  match alookup env "API_KEY" with
  | some v => v
  | none => interactive.trim

/-- common_headers from the notebook, parameterized by the resolved key. -/
def common_headers (apiKey : String) : List (String × String) :=
  [("OCP-APIM-Subscription-Key", apiKey),
   ("Accept", "application/json"),
   ("Content-Type", "application/json")]

/-- The cost_variables dict. -/
def cost_variables : JSON :=
  .obj [("fieldId", .str "https://data.agrimetrics.co.uk/fields/-Dzkwq1lmP0VkSfEcpSqsQ"),
        ("season", .str "SEP2019TOSEP2020"),
        ("layerType", .str "CROP_SPECIFIC"),
        ("cropType", .str "GRASS")]

/-- The cost_query GraphQL text. -/
def cost_query : String :=
  "\n    query RegistrationCostQuery(\n        $fieldId: ID!,\n        $layerType: LayerType!,\n        $season: CropSeason!,\n        $cropType: ObservationCropType\n        ) \n    \x7b\n      account \x7b\n        premiumData \x7b\n          cropObservationRegistrationsCost(registrations: \x7b\n            fieldId: $fieldId, \n            layerType: $layerType , \n            season: $season, \n            cropType: $cropType\x7d) \x7b\n            cost\n          \x7d\n        \x7d\n      \x7d\n    \x7d\n"

/-- The registration_query GraphQL text. -/
def registration_query : String :=
  "\n    mutation RegistrationQuery($fieldId: ID!,\n        $layerType: LayerType!,\n        $season: CropSeason!,\n        $cropType: ObservationCropType) \x7b\n      account \x7b\n        premiumData \x7b\n          addCropObservationRegistrations(registrations: \x7b\n            fieldId: $fieldId, \n            layerType: $layerType, \n            season: $season, \n            cropType: $cropType\x7d) \x7b\n            cost\n            id\n          \x7d\n        \x7d\n      \x7d\n    \x7d\n"

/-- The verde_data_query GraphQL text. -/
def verde_data_query : String :=
  "\nquery getFieldIdAtLocation($fieldId: [ID!]!) \x7b\n  fields(where: \x7bid: \x7bEQ: $fieldId\x7d\x7d) \x7b\n    cropObservations \x7b\n      brownVegetationCoverFraction \x7b\n        unit\n        median\n        mean\n      \x7d\n    \x7d\n  \x7d\n\x7d\n\n"

/-- The cost_query_object payload dict. -/
def cost_query_object : JSON :=
  .obj [("query", .str cost_query),
        ("variables", cost_variables),
        ("operationName", .str "RegistrationCostQuery")]

/-- The registration_query_object payload dict. -/
def registration_query_object : JSON :=
  .obj [("query", .str registration_query),
        ("variables", cost_variables),
        ("operationName", .str "RegistrationQuery")]

/-- The data_query_object payload dict. -/
def data_query_object : JSON :=
  .obj [("query", .str verde_data_query),
        ("variables", cost_variables),
        ("operationName", .str "getFieldIdAtLocation")]

/-- An outbound requests.post call: url, headers and JSON payload. -/
structure Request where
  url : String
  headers : List (String × String)
  payload : JSON

/-- The Step 1 cost request. -/
def cost_request (apiKey : String) : Request :=
  { url := GRAPHQL_ENDPOINT, headers := common_headers apiKey,
    payload := cost_query_object }

/-- The Step 2 registration request. -/
def registration_request (apiKey : String) : Request :=
  { url := GRAPHQL_ENDPOINT, headers := common_headers apiKey,
    payload := registration_query_object }

/-- The Step 3 verde data request. -/
def data_request (apiKey : String) : Request :=
  { url := GRAPHQL_ENDPOINT, headers := common_headers apiKey,
    payload := data_query_object }

/-- One segment of a literal extraction path: a string key or an int index. -/
inductive PKey where
  | s : String → PKey
  | i : Int → PKey

/-- Chained literal subscripting, e.g.
data['account']['premiumData']['cropObservationRegistrationsCost'][0]['cost']. -/
def extract (j : JSON) : List PKey → Except PyError JSON
  | [] => .ok j
  | PKey.s k :: rest =>
    match j.subscript k with
    | .ok v => extract v rest
    | .error e => .error e
  | PKey.i n :: rest =>
    match j.indexInt n with
    | .ok v => extract v rest
    | .error e => .error e

/-- Column set of a list of record rows, keys in first-appearance order. -/
def tableColumns (rows : List (List (String × JSON))) : List String :=
  rows.foldl (fun acc r => (r.map Prod.fst).foldl
    (fun a k => if k ∈ a then a else a ++ [k]) acc) []

/-- Modelled from the spec: the pandas DataFrame construction
pd.DataFrame(brown_vegetation) is library code absent from src; per the spec,
flattening an array of uniform objects makes each element a row and each key
a column, columns in the objects' key order, rows in input order. Missing
cells (which uniform inputs never produce) are left as null. -/
def flatten_table (rows : List (List (String × JSON))) :
    List String × List (List JSON) :=
  let cols := tableColumns rows
  (cols, rows.map fun r => cols.map fun c => (alookup r c).getD JSON.null)

/-- Well-formedness of one err['locations'] item: a dict with both the
'line' and 'column' keys. -/
def locOk (l : JSON) : Bool :=
  match l with
  | .obj lfs => (alookup lfs "line").isSome && (alookup lfs "column").isSome
  | _ => false

/-- Well-formedness of err['locations'] for an entry dict: present, a list,
every item wellformed. -/
def locsOk (fs : List (String × JSON)) : Bool :=
  match alookup fs "locations" with
  | some (.arr ls) => ls.all locOk
  | _ => false

/-- Whether a JSON value is a string. -/
def isStr : JSON → Bool
  | .str _ => true
  | _ => false

/-- Well-formedness of err['path'] for an entry dict: present, a list, every
segment a string (an integer segment makes ".".join raise TypeError). -/
def pathOk (fs : List (String × JSON)) : Bool :=
  match alookup fs "path" with
  | some (.arr ps) => ps.all isStr
  | _ => false

/-- A fully well-formed error entry: a dict carrying 'message', wellformed
'locations', an all-string 'path', and 'extensions'. -/
def entryOk (e : JSON) : Bool :=
  match e with
  | .obj fs =>
    (alookup fs "message").isSome && locsOk fs && pathOk fs &&
      (alookup fs "extensions").isSome
  | _ => false

/-- Spec Scenario B: a 200 response with one GraphQL error whose path
contains the integer segment 0. -/
def scenarioB_response : Response :=
  { status_code := 200,
    text := "\x7b\"errors\": [\x7b\"message\": \"bad field\", \"locations\": [\x7b\"line\": 3, \"column\": 5\x7d], \"path\": [\"fields\", 0, \"id\"], \"extensions\": \x7b\"code\": \"INVALID\"\x7d\x7d]\x7d",
    jsonBody := some (.obj [("errors", .arr [
      .obj [("message", .str "bad field"),
            ("locations", .arr [.obj [("line", .num 3), ("column", .num 5)]]),
            ("path", .arr [.str "fields", .num 0, .str "id"]),
            ("extensions", .obj [("code", .str "INVALID")])]])]) }

/-- A 200 response with a non-empty errors list on which the aggregate
exception is never reached: the single entry's path starts with the integer
segment 7. -/
def intPath_response : Response :=
  { status_code := 200,
    text := "\x7b\"errors\": [\x7b\"message\": \"bad query\", \"locations\": [\x7b\"line\": 1, \"column\": 2\x7d], \"path\": [7], \"extensions\": \x7b\"code\": \"BAD\"\x7d\x7d]\x7d",
    jsonBody := some (.obj [("errors", .arr [
      .obj [("message", .str "bad query"),
            ("locations", .arr [.obj [("line", .num 1), ("column", .num 2)]]),
            ("path", .arr [.num 7]),
            ("extensions", .obj [("code", .str "BAD")])]])]) }

/-- The Scenario A data object. -/
def scenarioA_data : JSON :=
  .obj [("account", .obj [("premiumData", .obj [("cropObservationRegistrationsCost",
    .arr [.obj [("cost", .num 0)]])])])]

/-- The Scenario A literal extraction path of the cost cell. -/
def scenarioA_path : List PKey :=
  [PKey.s "account", PKey.s "premiumData",
   PKey.s "cropObservationRegistrationsCost", PKey.i 0, PKey.s "cost"]

/-- The Scenario D input rows. -/
def scenarioD_rows : List (List (String × JSON)) :=
  [[("unit", .str "u1"), ("median", .num 0.1), ("mean", .num 0.2)],
   [("unit", .str "u1"), ("median", .num 0.3), ("mean", .num 0.4)]]

lemma locString_isOk (l : JSON) (h : locOk l = true) : ∃ s, locString l = .ok s := by
  cases l with
  | obj lfs =>
    simp only [locOk, Bool.and_eq_true, Option.isSome_iff_exists] at h
    obtain ⟨⟨vl, hvl⟩, vc, hvc⟩ := h
    exact ⟨"line " ++ pyStr vl ++ ", col " ++ pyStr vc,
      by simp [locString, JSON.subscript, hvl, hvc]⟩
  | null => simp [locOk] at h
  | bool b => simp [locOk] at h
  | num q => simp [locOk] at h
  | str s => simp [locOk] at h
  | arr xs => simp [locOk] at h

lemma locStrings_isOk (ls : List JSON) (h : ls.all locOk = true) :
    ∃ ss, locStrings ls = .ok ss := by
  induction ls with
  | nil => exact ⟨[], rfl⟩
  | cons l rest ih =>
    simp only [List.all_cons, Bool.and_eq_true] at h
    obtain ⟨s, hs⟩ := locString_isOk l h.1
    obtain ⟨ss, hss⟩ := ih h.2
    exact ⟨s :: ss, by simp [locStrings, hs, hss]⟩

lemma entryLocLine_isOk (efs : List (String × JSON)) (h : locsOk efs = true) :
    ∃ s, entryLocLine (.obj efs) = .ok s := by
  unfold locsOk at h
  cases hlk : alookup efs "locations" with
  | none => rw [hlk] at h; simp at h
  | some locs =>
    rw [hlk] at h
    cases locs with
    | arr ls =>
      obtain ⟨ss, hss⟩ := locStrings_isOk ls h
      exact ⟨String.intercalate " and " ss,
        by simp [entryLocLine, JSON.subscript, hlk, renderLocs, hss]⟩
    | null => simp at h
    | bool b => simp at h
    | num q => simp at h
    | str s => simp at h
    | obj fs2 => simp at h

lemma strJoinGo_isOk (ps : List JSON) (h : ps.all isStr = true) :
    ∀ i, ∃ ss, strJoinGo i ps = .ok ss := by
  induction ps with
  | nil => exact fun i => ⟨[], rfl⟩
  | cons p rest ih =>
    intro i
    simp only [List.all_cons, Bool.and_eq_true] at h
    obtain ⟨ss, hss⟩ := ih h.2 (i + 1)
    cases p with
    | str s => exact ⟨s :: ss, by simp [strJoinGo, hss]⟩
    | null => simp [isStr] at h
    | bool b => simp [isStr] at h
    | num q => simp [isStr] at h
    | arr xs => simp [isStr] at h
    | obj fs => simp [isStr] at h

lemma entryPathLine_isOk (efs : List (String × JSON)) (h : pathOk efs = true) :
    ∃ s, entryPathLine (.obj efs) = .ok s := by
  unfold pathOk at h
  cases hlk : alookup efs "path" with
  | none => rw [hlk] at h; simp at h
  | some p =>
    rw [hlk] at h
    cases p with
    | arr ps =>
      obtain ⟨ss, hss⟩ := strJoinGo_isOk ps h 0
      exact ⟨String.intercalate "." ss,
        by simp [entryPathLine, JSON.subscript, hlk, strJoin, hss]⟩
    | null => simp at h
    | bool b => simp at h
    | num q => simp at h
    | str s => simp at h
    | obj fs2 => simp at h

lemma processEntry_ok (e : JSON) (h : entryOk e = true) :
    ∃ out, processEntry e = (out, none) := by
  cases e with
  | obj efs =>
    simp only [entryOk, Bool.and_eq_true] at h
    obtain ⟨⟨⟨hmsg, hlocs⟩, hpath⟩, hext⟩ := h
    rw [Option.isSome_iff_exists] at hmsg hext
    obtain ⟨m, hm⟩ := hmsg
    obtain ⟨x, hx⟩ := hext
    obtain ⟨ls, hls⟩ := entryLocLine_isOk efs hlocs
    obtain ⟨ps, hps⟩ := entryPathLine_isOk efs hpath
    exact ⟨[pyStr m ++ ":", "  at " ++ ls, "  path " ++ ps, "  " ++ pyStr x],
      by simp [processEntry, JSON.subscript, hm, hls, hps, hx]⟩
  | null => simp [entryOk] at h
  | bool b => simp [entryOk] at h
  | num q => simp [entryOk] at h
  | str s => simp [entryOk] at h
  | arr xs => simp [entryOk] at h

lemma processEntries_ok (es : List JSON) (h : es.all entryOk = true) :
    ∃ out, processEntries es = (out, none) := by
  induction es with
  | nil => exact ⟨[], rfl⟩
  | cons e rest ih =>
    simp only [List.all_cons, Bool.and_eq_true] at h
    obtain ⟨out1, h1⟩ := processEntry_ok e h.1
    obtain ⟨out2, h2⟩ := ih h.2
    exact ⟨out1 ++ out2, by simp [processEntries, h1, h2]⟩

lemma processEntries_append_ok (pre l : List JSON) (h : pre.all entryOk = true) :
    (processEntries (pre ++ l)).2 = (processEntries l).2 := by
  induction pre with
  | nil => rfl
  | cons e rest ih =>
    simp only [List.all_cons, Bool.and_eq_true] at h
    obtain ⟨out1, h1⟩ := processEntry_ok e h.1
    simp [processEntries, h1, ih h.2]

lemma check_results_nonempty_errors (r : Response) (fs : List (String × JSON))
    (es : List JSON) (h1 : r.status_code = 200) (h2 : r.jsonBody = some (.obj fs))
    (h3 : alookup fs "errors" = some (.arr es)) (h4 : es ≠ []) :
    check_results r = (match processEntries es with
      | (out, some err) => (out, some err)
      | (out, none) => (out, some (.exn ("GraphQL reported " ++
          toString es.length ++ " errors")))) := by
  have ht : pyTruthy (.arr es) = true := by
    cases es with
    | nil => exact absurd rfl h4
    | cons a l => simp [pyTruthy]
  simp [check_results, h1, h2, Response.json, dictGet, h3, ht]

/-- Claim C1: for every response with status 200 and an empty or absent
errors list, check_results raises nothing and the caller's extraction of the
body's "data" field yields exactly the data object, unchanged. -/
theorem execute_200_no_errors_returns_data (r : Response)
    (fs : List (String × JSON)) (d : JSON)
    (h1 : r.status_code = 200) (h2 : r.jsonBody = some (.obj fs))
    (h3 : alookup fs "errors" = none ∨ alookup fs "errors" = some (.arr []))
    (h4 : alookup fs "data" = some d) :
    check_results r = ([], none) ∧ run_query r = ([], .ok d) := by
  have hcr : check_results r = ([], none) := by
    rcases h3 with h3 | h3 <;>
      simp [check_results, h1, h2, Response.json, dictGet, h3, pyTruthy]
  exact ⟨hcr, by simp [run_query, hcr, Response.json, h2, JSON.subscript, h4]⟩

/-- Witness for C1 at a concrete 200 response carrying only a data object. -/
theorem execute_200_no_errors_returns_data_witness :
    check_results
        { status_code := 200, text := "\x7b\"data\": \x7b\"a\": 1\x7d\x7d",
          jsonBody := some (.obj [("data", .obj [("a", .num 1)])]) } =
      ([], none) ∧
    run_query
        { status_code := 200, text := "\x7b\"data\": \x7b\"a\": 1\x7d\x7d",
          jsonBody := some (.obj [("data", .obj [("a", .num 1)])]) } =
      ([], .ok (.obj [("a", .num 1)])) :=
  execute_200_no_errors_returns_data _ [("data", .obj [("a", .num 1)])] _
    rfl rfl (Or.inl rfl) rfl

/-- Claim C2: for every non-200 response, check_results raises an exception
whose message carries the exact status code and the exact raw body text. -/
theorem check_results_non200_raises_transport (r : Response)
    (h : r.status_code ≠ 200) :
    check_results r = ([], some (.exn ("Request failed with code " ++
      toString r.status_code ++ ".\n" ++ r.text))) := by
  unfold check_results
  rw [if_pos h]

/-- Witness for C2, the spec Scenario C: status 403 and body "Forbidden"
yield the failure carrying 403 and "Forbidden". -/
theorem check_results_non200_raises_transport_witness :
    check_results { status_code := 403, text := "Forbidden", jsonBody := none } =
      ([], some (.exn "Request failed with code 403.\nForbidden")) :=
  check_results_non200_raises_transport
    { status_code := 403, text := "Forbidden", jsonBody := none } (by decide)

/-- Claim C3 counterexample: a 200 response with exactly one errors entry on
which check_results does not raise the aggregate count error: the entry's
path holds the integer 7, so ".".join raises TypeError first. -/
theorem aggregate_count_counterexample :
    intPath_response.status_code = 200 ∧
    check_results intPath_response =
      (["bad query:", "  at line 1, col 2"],
       some (.typeError "sequence item 0: expected str instance, int found")) ∧
    (check_results intPath_response).2 ≠
      some (.exn "GraphQL reported 1 errors") := by
  refine ⟨rfl, by decide, by decide⟩

/-- Claim C3, amended: for every 200 response with a non-empty errors list
all of whose entries are well formed (a dict with message, a locations list
of line/column dicts, an all-string path, and extensions), check_results
raises the aggregate error reporting len(errors). -/
theorem check_results_aggregate_count (r : Response)
    (fs : List (String × JSON)) (es : List JSON)
    (h1 : r.status_code = 200) (h2 : r.jsonBody = some (.obj fs))
    (h3 : alookup fs "errors" = some (.arr es)) (h4 : es ≠ [])
    (h5 : es.all entryOk = true) :
    (check_results r).2 =
      some (.exn ("GraphQL reported " ++ toString es.length ++ " errors")) := by
  obtain ⟨out, hout⟩ := processEntries_ok es h5
  rw [check_results_nonempty_errors r fs es h1 h2 h3 h4, hout]

/-- Witness for the amended C3 at a concrete two-entry errors list. -/
theorem check_results_aggregate_count_witness :
    (check_results
      { status_code := 200, text := "",
        jsonBody := some (.obj [("errors", .arr [
          .obj [("message", .str "m1"),
                ("locations", .arr [.obj [("line", .num 1), ("column", .num 2)]]),
                ("path", .arr [.str "a"]),
                ("extensions", .obj [])],
          .obj [("message", .str "m2"),
                ("locations", .arr []),
                ("path", .arr [.str "b", .str "c"]),
                ("extensions", .obj [("k", .null)])]])]) }).2 =
      some (.exn "GraphQL reported 2 errors") :=
  check_results_aggregate_count _
    [("errors", .arr [
      .obj [("message", .str "m1"),
            ("locations", .arr [.obj [("line", .num 1), ("column", .num 2)]]),
            ("path", .arr [.str "a"]),
            ("extensions", .obj [])],
      .obj [("message", .str "m2"),
            ("locations", .arr []),
            ("path", .arr [.str "b", .str "c"]),
            ("extensions", .obj [("k", .null)])]])]
    [.obj [("message", .str "m1"),
           ("locations", .arr [.obj [("line", .num 1), ("column", .num 2)]]),
           ("path", .arr [.str "a"]),
           ("extensions", .obj [])],
     .obj [("message", .str "m2"),
           ("locations", .arr []),
           ("path", .arr [.str "b", .str "c"]),
           ("extensions", .obj [("k", .null)])]]
    rfl rfl rfl (by simp) (by decide)

/-- Claim C4: at the spec Scenario B input (one error with path
["fields", 0, "id"]), check_results prints the message and location lines
but then raises TypeError from ".".join on the integer path segment; the
dot-joined path "fields.0.id" is never rendered and the aggregate error is
never reached. -/
theorem scenarioB_divergence :
    check_results scenarioB_response =
      (["bad field:", "  at line 3, col 5"],
       some (.typeError "sequence item 1: expected str instance, int found")) := by
  decide

/-- Claim C5: all three calls of the notebook (cost query, registration
mutation, data query) send the same fixed header set, and that set holds
exactly the subscription-key header, Accept: application/json and
Content-Type: application/json. -/
theorem all_requests_use_common_headers (apiKey : String) :
    (cost_request apiKey).headers = common_headers apiKey ∧
    (registration_request apiKey).headers = common_headers apiKey ∧
    (data_request apiKey).headers = common_headers apiKey ∧
    (common_headers apiKey).map Prod.fst =
      ["OCP-APIM-Subscription-Key", "Accept", "Content-Type"] ∧
    alookup (common_headers apiKey) "OCP-APIM-Subscription-Key" = some apiKey ∧
    alookup (common_headers apiKey) "Accept" = some "application/json" ∧
    alookup (common_headers apiKey) "Content-Type" = some "application/json" :=
  ⟨rfl, rfl, rfl, rfl, rfl, rfl, rfl⟩

/-- Claim C6: an error entry's keys locations, path and extensions are read
unconditionally, so an entry that omits one of them (after any number of
fully well-formed entries) makes check_results fail with a KeyError naming
that key instead of reaching the aggregate error. -/
theorem error_entry_keys_read_unconditionally (r : Response)
    (fs efs : List (String × JSON)) (pre rest : List JSON)
    (h1 : r.status_code = 200) (h2 : r.jsonBody = some (.obj fs))
    (h3 : alookup fs "errors" = some (.arr (pre ++ JSON.obj efs :: rest)))
    (h4 : pre.all entryOk = true)
    (h5 : (alookup efs "message").isSome = true) :
    (alookup efs "locations" = none →
      (check_results r).2 = some (.keyError "locations")) ∧
    (locsOk efs = true → alookup efs "path" = none →
      (check_results r).2 = some (.keyError "path")) ∧
    (locsOk efs = true → pathOk efs = true → alookup efs "extensions" = none →
      (check_results r).2 = some (.keyError "extensions")) := by
  rw [Option.isSome_iff_exists] at h5
  obtain ⟨m, hm⟩ := h5
  have hne : pre ++ JSON.obj efs :: rest ≠ [] := by simp
  have hbase := check_results_nonempty_errors r fs _ h1 h2 h3 hne
  have houtcome : ∀ err, (processEntry (JSON.obj efs)).2 = some err →
      (check_results r).2 = some err := by
    intro err herr
    have happ := processEntries_append_ok pre (JSON.obj efs :: rest) h4
    have hcons : (processEntries (JSON.obj efs :: rest)).2 = some err := by
      cases hpe : processEntry (JSON.obj efs) with
      | mk out o =>
        rw [hpe] at herr
        simp at herr
        subst herr
        simp [processEntries, hpe]
    rw [hbase]
    rcases hres : processEntries (pre ++ JSON.obj efs :: rest) with ⟨out, o⟩
    have : o = some err := by
      have := happ.trans hcons
      rw [hres] at this
      exact this.symm ▸ rfl
    subst this
    simp
  refine ⟨?_, ?_, ?_⟩
  · intro hloc
    exact houtcome _ (by simp [processEntry, JSON.subscript, hm, entryLocLine, hloc])
  · intro hlocs hpath
    obtain ⟨ls, hls⟩ := entryLocLine_isOk efs hlocs
    exact houtcome _
      (by simp [processEntry, JSON.subscript, hm, hls, entryPathLine, hpath])
  · intro hlocs hpath hext
    obtain ⟨ls, hls⟩ := entryLocLine_isOk efs hlocs
    obtain ⟨ps, hps⟩ := entryPathLine_isOk efs hpath
    exact houtcome _
      (by simp [processEntry, JSON.subscript, hm, hls, hps, hext])

/-- Witness for C6: three concrete single-entry responses, each missing one
of the keys locations, path, extensions. -/
theorem error_entry_keys_read_unconditionally_witness :
    (check_results
      { status_code := 200, text := "", jsonBody := some (.obj [("errors",
          .arr [.obj [("message", .str "m")]])]) }).2 =
      some (.keyError "locations") ∧
    (check_results
      { status_code := 200, text := "", jsonBody := some (.obj [("errors",
          .arr [.obj [("message", .str "m"), ("locations", .arr [])]])]) }).2 =
      some (.keyError "path") ∧
    (check_results
      { status_code := 200, text := "", jsonBody := some (.obj [("errors",
          .arr [.obj [("message", .str "m"), ("locations", .arr []),
                      ("path", .arr [.str "a"])]])]) }).2 =
      some (.keyError "extensions") :=
  ⟨(error_entry_keys_read_unconditionally _
      [("errors", .arr [.obj [("message", .str "m")]])]
      [("message", .str "m")] [] []
      rfl rfl rfl rfl rfl).1 rfl,
   (error_entry_keys_read_unconditionally _
      [("errors", .arr [.obj [("message", .str "m"), ("locations", .arr [])]])]
      [("message", .str "m"), ("locations", .arr [])] [] []
      rfl rfl rfl rfl rfl).2.1 rfl rfl,
   (error_entry_keys_read_unconditionally _
      [("errors", .arr [.obj [("message", .str "m"), ("locations", .arr []),
        ("path", .arr [.str "a"])]])]
      [("message", .str "m"), ("locations", .arr []), ("path", .arr [.str "a"])]
      [] [] rfl rfl rfl rfl rfl).2.2 rfl rfl rfl⟩

/-- Claim C7: the subscription key is read from the environment under the
fixed name API_KEY and used verbatim when present; only when absent is the
interactively collected (and stripped) value used. -/
theorem api_key_resolution (env : List (String × String))
    (interactive v : String) :
    (alookup env "API_KEY" = some v →
      resolve_api_key env interactive = v) ∧
    (alookup env "API_KEY" = none →
      resolve_api_key env interactive = interactive.trim) := by
  constructor
  · intro h; simp [resolve_api_key, h]
  · intro h; simp [resolve_api_key, h]

/-- Witness for C7 at a set and an unset environment. -/
theorem api_key_resolution_witness :
    resolve_api_key [("API_KEY", " k1 ")] "zz" = " k1 " ∧
    resolve_api_key [("HOME", "/root")] " k2 " = " k2 ".trim :=
  ⟨(api_key_resolution [("API_KEY", " k1 ")] "zz" " k1 ").1 rfl,
    (api_key_resolution [("HOME", "/root")] " k2 " "").2 rfl⟩

/-- Claim C8: extracting the Scenario A data object along the literal key
path of the cost cell yields 0. -/
theorem scenarioA_cost_extraction :
    extract scenarioA_data scenarioA_path = .ok (.num 0) := rfl

/-- Claim C9: flattening an array of uniform objects maps each element to
one row (for all inputs) and each key to one column in the objects' key
order; on the Scenario D input this gives 2 rows and the 3 columns unit,
median, mean in that order, rows in input order. -/
theorem flatten_rows_and_columns :
    (∀ rows : List (List (String × JSON)),
      (flatten_table rows).2.length = rows.length) ∧
    flatten_table scenarioD_rows =
      (["unit", "median", "mean"],
       [[.str "u1", .num 0.1, .num 0.2],
        [.str "u1", .num 0.3, .num 0.4]]) := by
  constructor
  · intro rows
    simp [flatten_table]
  · rfl

/-- Claim C10: on a 200 response with no errors list and no data key,
check_results itself raises nothing, but the caller's unconditional
result.json()["data"] lookup raises KeyError("data"). -/
theorem missing_data_key_raises (r : Response) (fs : List (String × JSON))
    (h1 : r.status_code = 200) (h2 : r.jsonBody = some (.obj fs))
    (h3 : alookup fs "errors" = none ∨ alookup fs "errors" = some (.arr []))
    (h4 : alookup fs "data" = none) :
    check_results r = ([], none) ∧
    run_query r = ([], .error (.keyError "data")) := by
  have hcr : check_results r = ([], none) := by
    rcases h3 with h3 | h3 <;>
      simp [check_results, h1, h2, Response.json, dictGet, h3, pyTruthy]
  exact ⟨hcr, by simp [run_query, hcr, Response.json, h2, JSON.subscript, h4]⟩

/-- Witness for C10 at a concrete 200 response whose body is an empty
object. -/
theorem missing_data_key_raises_witness :
    check_results
      { status_code := 200, text := "\x7b\x7d", jsonBody := some (.obj []) } =
      ([], none) ∧
    run_query
      { status_code := 200, text := "\x7b\x7d", jsonBody := some (.obj []) } =
      ([], .error (.keyError "data")) :=
  missing_data_key_raises _ [] rfl rfl (Or.inl rfl) rfl
